import Mathlib

/-!
Verification of the Soorj interpreter (an Armenian-keyword scripting
language: lexer.py, parser.py, interpreter.py, soorj.py) against its
specification.  The embedding below translates the data model and the
operations of the source files; the theorems at the end settle the
individual claims of the specification.

Conventions of the embedding:
* Numbers are IEEE-754 doubles in the source.  The embedding carries them
  as exact rationals and keeps the host-dependent pieces — the default
  double-to-string rendering, the repr of a function object, `float(s)`
  parsing — abstract in a `Host` structure that every theorem quantifies
  over (or instantiates where the outcome cannot depend on it).
* Python exceptions become an explicit error sum `Err`; the mutable
  interpreter state (the environment chain and everything printed) is
  threaded explicitly, on error paths too.
* Recursion of the tree-walking evaluator and of the scanner loop is made
  total with a fuel parameter; fuel exhaustion is a distinguished error
  that no theorem ever treats as a program outcome.
-/

namespace Soorj

/-- AST nodes, one constructor per dataclass of parser.py.  The source keeps
a single `ASTNode` base class covering both expressions and statements, so
the embedding does too. -/
inductive ASTNode where
  | numberLiteral (value : ℚ)
  | stringLiteral (value : String)
  | booleanLiteral (value : Bool)
  | nullLiteral
  | identifier (name : String)
  | binaryOp (left : ASTNode) (operator : String) (right : ASTNode)
  | unaryOp (operator : String) (operand : ASTNode)
  | assignment (target : String) (value : ASTNode)
  | functionCall (name : String) (arguments : List ASTNode)
  | exprStatement (expression : ASTNode)
  | ifStatement (condition : ASTNode) (thenBranch : List ASTNode)
      (elseBranch : Option (List ASTNode))
  | whileStatement (condition : ASTNode) (body : List ASTNode)
  | returnStatement (value : Option ASTNode)
  | functionDeclaration (name : String) (parameters : List String) (body : List ASTNode)
  | program (statements : List ASTNode)

/-- A function value: `SoorjFunction` (which stores name, parameters and
body — note it captures no environment at definition time) or
`BuiltinFunction` (whose native callable is dispatched by name;
`setup_builtins` only ever constructs the three built-ins). -/
inductive FuncVal where
  | user (name : String) (parameters : List String) (body : List ASTNode)
  | builtin (name : String)

/-- The raw Python object stored in `SoorjValue.value`. -/
inductive PyVal where
  | none
  | bool (b : Bool)
  | num (q : ℚ)
  | str (s : String)
  | func (f : FuncVal)

/-- `SoorjValue`: a raw payload together with its `type_name` tag. -/
structure SoorjValue where
  value : PyVal
  type_name : String

def nullValue : SoorjValue := ⟨.none, "null"⟩
def boolValue (b : Bool) : SoorjValue := ⟨.bool b, "boolean"⟩
def numValue (q : ℚ) : SoorjValue := ⟨.num q, "number"⟩
def strValue (s : String) : SoorjValue := ⟨.str s, "string"⟩

/-- Host-dependent primitives of the Python runtime, left abstract: the
default double-to-string rendering used by `str` on a number, the repr
text of a function object, `float(s)` parsing (where `Option.none` models
the `ValueError` path), and object identity on function objects — the
relation `==` falls back to for objects without an `__eq__`, which is not
derivable from the objects' data. -/
structure Host where
  numStr : ℚ → String
  funcStr : FuncVal → String
  parseNum : String → Option ℚ
  funcIs : FuncVal → FuncVal → Bool

/-- A concrete host instantiation, used only in closed computations whose
outcome does not depend on number rendering, parsing, or function-object
identity. -/
def defaultHost : Host := ⟨fun _ => "", fun _ => "", fun _ => Option.none, fun _ _ => false⟩

/-- Python truthiness of a raw payload, used where the source tests an
arbitrary object (`if self.value:`, `1 if arg.value else 0`). -/
def pyTruthy : PyVal → Bool
  | .none => false
  | .bool b => b
  | .num q => if q = 0 then false else true
  | .str s => if s.length = 0 then false else true
  | .func _ => true

/-- The numeric value Python gives a boolean in arithmetic and comparison
contexts (`True == 1`, `False == 0`). -/
def pyBoolAsNum (b : Bool) : ℚ := if b then 1 else 0

/-- Python `==` on the raw payloads, as used by the interpreter's equality
operators (`left.value == right.value`, with no tag check): `None` equals
only itself, booleans and numbers compare numerically, strings compare by
contents, every other cross-type pair is unequal; two function objects
compare by the host's object identity. -/
def pyEq (H : Host) : PyVal → PyVal → Bool
  | .none, .none => true
  | .bool a, .bool b => a == b
  | .bool a, .num q => pyBoolAsNum a == q
  | .num q, .bool b => q == pyBoolAsNum b
  | .num a, .num b => a == b
  | .str a, .str b => a == b
  | .func f, .func g => H.funcIs f g
  | _, _ => false

/-- Python `x != 0` on a raw payload — the number arm of `is_truthy`
(`self.value != 0`): a number compares numerically, a boolean numerically
through `True == 1` / `False == 0`, and everything else differs from `0`. -/
def pyNeZero : PyVal → Bool
  | .num q => if q = 0 then false else true
  | .bool b => b
  | _ => true

/-- Python `str(x)` on the raw payloads — what the source writes as
`str(left.value)` in `+` and `str(arg.value)` in `բառ`: `None` becomes
"None", booleans "True"/"False", a string yields its own characters, a
number uses the host rendering. -/
def pyStr (H : Host) : PyVal → String
  | .none => "None"
  | .bool b => if b then "True" else "False"
  | .num q => H.numStr q
  | .str s => s
  | .func f => H.funcStr f

/-- `SoorjValue.__str__`, the display form: null and booleans print their
Armenian names, a string its raw characters, anything else
`str(self.value)`. -/
def display (H : Host) (v : SoorjValue) : String :=
  if v.type_name = "null" then "հեչ"
  else if v.type_name = "boolean" then (if pyTruthy v.value then "այո" else "ոչ")
  else if v.type_name = "string" then
    (match v.value with
     | .str s => s
     | w => pyStr H w)
  else pyStr H v.value

/-- `SoorjValue.is_truthy`.  The string arm reads `len(self.value) > 0`; the
fallback arm of that match is never reached, because the interpreter only
builds tag-consistent values. -/
def SoorjValue.isTruthy (v : SoorjValue) : Bool :=
  if v.type_name = "null" then false
  else if v.type_name = "boolean" then pyTruthy v.value
  else if v.type_name = "number" then pyNeZero v.value
  else if v.type_name = "string" then
    (match v.value with
     | .str s => decide (0 < s.length)
     | _ => true)
  else true

/-- One `Environment.variables` dictionary: an insertion-ordered association
list with unique keys, like a Python dict. -/
abbrev Frame := List (String × SoorjValue)

/-- Membership test `name in self.variables`. -/
def frameHas (f : Frame) (n : String) : Bool := (List.lookup n f).isSome

/-- Dictionary write `self.variables[name] = value`: update the existing
entry in place, else append a new one. -/
def frameSet : Frame → String → SoorjValue → Frame
  | [], n, v => [(n, v)]
  | (k, w) :: rest, n, v =>
      if k = n then (n, v) :: rest else (k, w) :: frameSet rest n v

/-- The chain of environments reachable from `interpreter.environment`:
innermost frame first, the root last.  User functions store no environment
(free variables are dynamically scoped), so this chain is the complete set
of live environments and parent links never escape it. -/
abbrev Env := List Frame

/-- `Environment.get`: walk the parent chain; `Option.none` models the
`RuntimeError` for an undefined variable. -/
def envGet : Env → String → Option SoorjValue
  | [], _ => Option.none
  | f :: rest, n =>
      match List.lookup n f with
      | some v => some v
      | Option.none => envGet rest n

/-- `Environment.assign`: update the nearest frame that already binds the
name; `Option.none` models the `RuntimeError` when no frame on the chain
does. -/
def envAssign : Env → String → SoorjValue → Option Env
  | [], _, _ => Option.none
  | f :: rest, n, v =>
      if frameHas f n then some (frameSet f n v :: rest)
      else
        match envAssign rest n v with
        | some rest2 => some (f :: rest2)
        | Option.none => Option.none

/-- `Environment.define` on the innermost frame.  The interpreter's chain is
never empty (the root is created in the constructor); the empty case is a
vacuous totalization. -/
def envDefine : Env → String → SoorjValue → Env
  | [], n, v => [[(n, v)]]
  | f :: rest, n, v => frameSet f n v :: rest

/-- The `try: assign / except RuntimeError: define` policy of
`Interpreter.evaluate` on an `Assignment` node. -/
def assignOrDefine (env : Env) (n : String) (v : SoorjValue) : Env :=
  match envAssign env n v with
  | some env2 => env2
  | Option.none => envDefine env n v

/-- The exceptions that can leave an evaluator call: `RuntimeError` with its
message, the `ReturnValue` control signal, the host's `ZeroDivisionError`
(raised by `%` with a zero divisor — the source guards only `/`), and fuel
exhaustion of the embedding. -/
inductive Err where
  | runtime (msg : String)
  | ret (v : SoorjValue)
  | zeroDiv
  | fuelOut

/-- Whether an exception is the interpreter's `RuntimeError` — the only kind
`Interpreter.interpret` catches, and the evaluator's only own error kind
(the other two kinds of the system, lexical and syntax errors, live in the
scanner and parser). -/
def Err.isRuntime : Err → Bool
  | .runtime _ => true
  | _ => false

/-- Interpreter state: the current environment chain plus everything
printed so far (one list entry per `print` call). -/
structure State where
  env : Env
  out : List String

/-- Python float `%`: the remainder with the divisor's sign,
`a - b * floor(a / b)`. -/
def pyMod (a b : ℚ) : ℚ := a - b * ⌊a / b⌋

/-- A shape shared by the arithmetic and ordering arms of
`evaluate_binary_op`: both tags must read "number", else the given
`RuntimeError`.  (The fallback match arm is unreachable: the tag "number"
is only ever paired with a numeric payload.) -/
def onNumbers (l r : SoorjValue) (k : ℚ → ℚ → Except Err SoorjValue)
    (msg : String) : Except Err SoorjValue :=
  if l.type_name = "number" ∧ r.type_name = "number" then
    match l.value, r.value with
    | .num a, .num b => k a b
    | _, _ => .error (.runtime msg)
  else .error (.runtime msg)

/-- The operator dispatch of `Interpreter.evaluate_binary_op`, after both
operands have already been evaluated — the source evaluates `left` and
`right` unconditionally before looking at the operator, so the logical
operators see both results. -/
def binaryOpOn (H : Host) (op : String) (l r : SoorjValue) : Except Err SoorjValue :=
  if op = "+" then
    if l.type_name = "number" ∧ r.type_name = "number" then
      match l.value, r.value with
      | .num a, .num b => .ok (numValue (a + b))
      | _, _ => .error (.runtime "Invalid operands for +")
    else if l.type_name = "string" ∨ r.type_name = "string" then
      .ok (strValue (pyStr H l.value ++ pyStr H r.value))
    else .error (.runtime "Invalid operands for +")
  else if op = "-" then
    onNumbers l r (fun a b => .ok (numValue (a - b))) "Invalid operands for -"
  else if op = "*" then
    onNumbers l r (fun a b => .ok (numValue (a * b))) "Invalid operands for *"
  else if op = "/" then
    onNumbers l r
      (fun a b =>
        if b = 0 then .error (.runtime "Division by zero")
        else .ok (numValue (a / b)))
      "Invalid operands for /"
  else if op = "%" then
    onNumbers l r
      (fun a b =>
        if b = 0 then .error .zeroDiv   -- host ZeroDivisionError: float modulo
        else .ok (numValue (pyMod a b)))
      "Invalid operands for %"
  else if op = "==" then .ok (boolValue (pyEq H l.value r.value))
  else if op = "!=" then .ok (boolValue (!pyEq H l.value r.value))
  else if op = "<" then
    onNumbers l r (fun a b => .ok (boolValue (decide (a < b)))) "Invalid operands for <"
  else if op = ">" then
    onNumbers l r (fun a b => .ok (boolValue (decide (b < a)))) "Invalid operands for >"
  else if op = "<=" then
    onNumbers l r (fun a b => .ok (boolValue (decide (a ≤ b)))) "Invalid operands for <="
  else if op = ">=" then
    onNumbers l r (fun a b => .ok (boolValue (decide (b ≤ a)))) "Invalid operands for >="
  else if op = "և" then .ok (boolValue (l.isTruthy && r.isTruthy))
  else if op = "կամ" then .ok (boolValue (l.isTruthy || r.isTruthy))
  else .error (.runtime ("Unknown binary operator: " ++ op))

/-- The operator dispatch of `Interpreter.evaluate_unary_op` after the
operand has been evaluated. -/
def unaryOpOn (op : String) (v : SoorjValue) : Except Err SoorjValue :=
  if op = "-" then
    if v.type_name = "number" then
      match v.value with
      | .num q => .ok (numValue (-q))
      | _ => .error (.runtime "Invalid operand for unary -")
    else .error (.runtime "Invalid operand for unary -")
  else if op = "չի" ∨ op = "not" then .ok (boolValue (!v.isTruthy))
  else .error (.runtime ("Unknown unary operator: " ++ op))

/-- The line `builtin_gre` prints: nothing for zero arguments, else the
display forms joined by single spaces. -/
def greLine (H : Host) (args : List SoorjValue) : String :=
  match args with
  | [] => ""
  | _ => String.intercalate " " (args.map (display H))

/-- `builtin_tiv` (`թիվ`): convert to a number.  A string goes through
`float(...)`; on the `ValueError` path the result is `0`.  The boolean arm
is `1 if arg.value else 0` on the raw payload. -/
def builtinTiv (H : Host) (args : List SoorjValue) : Except Err SoorjValue :=
  match args with
  | [arg] =>
      if arg.type_name = "number" then .ok arg
      else if arg.type_name = "string" then
        (match arg.value with
         | .str s =>
             (match H.parseNum s with
              | some q => .ok (numValue q)
              | Option.none => .ok (numValue 0))
         | _ => .ok (numValue 0))
      else if arg.type_name = "boolean" then
        .ok (numValue (if pyTruthy arg.value then 1 else 0))
      else .ok (numValue 0)
  | _ => .error (.runtime "թիվ expects exactly 1 argument")

/-- `builtin_bar` (`բառ`): convert to a string; everything that is neither
a string nor null renders through `str(arg.value)`. -/
def builtinBar (H : Host) (args : List SoorjValue) : Except Err SoorjValue :=
  match args with
  | [arg] =>
      if arg.type_name = "string" then .ok arg
      else if arg.type_name = "null" then .ok (strValue "")
      else .ok (strValue (pyStr H arg.value))
  | _ => .error (.runtime "բառ expects exactly 1 argument")

/-- Dispatch of a `BuiltinFunction.call` by name; `setup_builtins` installs
exactly these three, so the final arm is unreachable. -/
def callBuiltin (H : Host) (name : String) (args : List SoorjValue) (st : State) :
    Except (Err × State) (SoorjValue × State) :=
  if name = "գրէ" then .ok (nullValue, { st with out := st.out ++ [greLine H args] })
  else if name = "թիվ" then
    match builtinTiv H args with
    | .ok v => .ok (v, st)
    | .error e => .error (e, st)
  else if name = "բառ" then
    match builtinBar H args with
    | .ok v => .ok (v, st)
    | .error e => .error (e, st)
  else .error (.runtime "unknown builtin", st)

/-- Parameter binding of `SoorjFunction.call`: `define` each parameter to
its argument in the fresh frame, pairing them in order (`zip`). -/
def bindParams (params : List String) (args : List SoorjValue) : Frame :=
  (params.zip args).foldl (fun f pa => frameSet f pa.1 pa.2) []

mutual

/-- `Interpreter.evaluate`, fuel-indexed.  Statement nodes fall through to
the source's "Unknown node type" error. -/
def evaluate (H : Host) : Nat → ASTNode → State → Except (Err × State) (SoorjValue × State)
  | 0, _, st => .error (.fuelOut, st)
  | n+1, node, st =>
    match node with
    | .numberLiteral q => .ok (numValue q, st)
    | .stringLiteral s => .ok (strValue s, st)
    | .booleanLiteral b => .ok (boolValue b, st)
    | .nullLiteral => .ok (nullValue, st)
    | .identifier name =>
        (match envGet st.env name with
         | some v => .ok (v, st)
         | Option.none => .error (.runtime ("Undefined variable '" ++ name ++ "'"), st))
    | .assignment target valueE =>
        (match evaluate H n valueE st with
         | .error es => .error es
         | .ok (v, st1) => .ok (v, { st1 with env := assignOrDefine st1.env target v }))
    | .binaryOp l op r =>
        (match evaluate H n l st with
         | .error es => .error es
         | .ok (lv, st1) =>
             match evaluate H n r st1 with
             | .error es => .error es
             | .ok (rv, st2) =>
                 match binaryOpOn H op lv rv with
                 | .ok v => .ok (v, st2)
                 | .error e => .error (e, st2))
    | .unaryOp op e =>
        (match evaluate H n e st with
         | .error es => .error es
         | .ok (v, st1) =>
             match unaryOpOn op v with
             | .ok w => .ok (w, st1)
             | .error e2 => .error (e2, st1))
    | .functionCall name argEs =>
        (match envGet st.env name with
         | Option.none => .error (.runtime ("Undefined variable '" ++ name ++ "'"), st)
         | some fv =>
             if fv.type_name = "function" then
               match evaluateArgs H n argEs st with
               | .error es => .error es
               | .ok (args, st1) =>
                   match fv.value with
                   | .func (.user fname params body) =>
                       callFunction H n fname params body args st1
                   | .func (.builtin bname) => callBuiltin H bname args st1
                   | _ => .error (.runtime ("'" ++ name ++ "' is not a function"), st1)
             else .error (.runtime ("'" ++ name ++ "' is not a function"), st))
    | _ => .error (.runtime "Unknown node type", st)
termination_by structural n _ _ => n

/-- `Interpreter.execute`.  Its final arm delegates expression nodes to
`evaluate` and passes the value up. -/
def execute (H : Host) : Nat → ASTNode → State → Except (Err × State) (Option SoorjValue × State)
  | 0, _, st => .error (.fuelOut, st)
  | n+1, node, st =>
    match node with
    | .program stmts =>
        (match executeList H n stmts st with
         | .ok st1 => .ok (Option.none, st1)
         | .error es => .error es)
    | .exprStatement e =>
        (match evaluate H n e st with
         | .ok (v, st1) => .ok (some v, st1)
         | .error es => .error es)
    | .ifStatement c tb eb =>
        (match evaluate H n c st with
         | .error es => .error es
         | .ok (cv, st1) =>
             if cv.isTruthy then
               match executeList H n tb st1 with
               | .ok st2 => .ok (Option.none, st2)
               | .error es => .error es
             else
               match eb with
               | some ebl =>
                   (match executeList H n ebl st1 with
                    | .ok st2 => .ok (Option.none, st2)
                    | .error es => .error es)
               | Option.none => .ok (Option.none, st1))
    | .whileStatement c body =>
        (match evaluate H n c st with
         | .error es => .error es
         | .ok (cv, st1) =>
             if cv.isTruthy then
               match executeList H n body st1 with
               | .error es => .error es
               | .ok st2 => execute H n (.whileStatement c body) st2
             else .ok (Option.none, st1))
    | .returnStatement vE =>
        (match vE with
         | Option.none => .error (.ret nullValue, st)
         | some e =>
             match evaluate H n e st with
             | .error es => .error es
             | .ok (v, st1) => .error (.ret v, st1))
    | .functionDeclaration name params body =>
        .ok (Option.none,
             { st with env := envDefine st.env name ⟨.func (.user name params body), "function"⟩ })
    | other =>
        (match evaluate H n other st with
         | .ok (v, st1) => .ok (some v, st1)
         | .error es => .error es)
termination_by structural n _ _ => n

/-- The statement loops of the source (`for stmt in ...: self.execute(stmt)`),
shared by blocks, function bodies and the program. -/
def executeList (H : Host) : Nat → List ASTNode → State → Except (Err × State) State
  | 0, _, st => .error (.fuelOut, st)
  | _+1, [], st => .ok st
  | n+1, s :: rest, st =>
      match execute H n s st with
      | .error es => .error es
      | .ok (_, st1) => executeList H n rest st1
termination_by structural n _ _ => n

/-- Left-to-right argument evaluation of `evaluate_function_call`. -/
def evaluateArgs (H : Host) : Nat → List ASTNode → State → Except (Err × State) (List SoorjValue × State)
  | 0, _, st => .error (.fuelOut, st)
  | _+1, [], st => .ok ([], st)
  | n+1, e :: rest, st =>
      match evaluate H n e st with
      | .error es => .error es
      | .ok (v, st1) =>
          match evaluateArgs H n rest st1 with
          | .error es => .error es
          | .ok (vs, st2) => .ok (v :: vs, st2)
termination_by structural n _ _ => n

/-- `SoorjFunction.call`: arity check, push a fresh frame whose parent is
the interpreter's current environment at call time, run the body, give
back the carried value of a `ReturnValue` signal (or null when the body
finishes), and restore the caller chain in `finally` — on the error path
too. -/
def callFunction (H : Host) : Nat → String → List String → List ASTNode →
    List SoorjValue → State → Except (Err × State) (SoorjValue × State)
  | 0, _, _, _, _, st => .error (.fuelOut, st)
  | n+1, fname, params, body, args, st =>
      if args.length ≠ params.length then
        .error (.runtime ("Function " ++ fname ++ " expects " ++ toString params.length ++
                " arguments, got " ++ toString args.length), st)
      else
        match executeList H n body { st with env := bindParams params args :: st.env } with
        | .ok st2 => .ok (nullValue, { st2 with env := st2.env.tail })
        | .error (.ret v, st2) => .ok (v, { st2 with env := st2.env.tail })
        | .error (e, st2) => .error (e, { st2 with env := st2.env.tail })
termination_by structural n _ _ _ _ _ => n

end

/-- The root environment after `Interpreter.__init__` ran `setup_builtins`. -/
def initialEnv : Env :=
  [[("գրէ", ⟨.func (.builtin "գրէ"), "function"⟩),
    ("թիվ", ⟨.func (.builtin "թիվ"), "function"⟩),
    ("բառ", ⟨.func (.builtin "բառ"), "function"⟩)]]

/-- A fresh interpreter: root environment, nothing printed yet. -/
def initState : State := ⟨initialEnv, []⟩

/-- `Interpreter.interpret` on a program's statement list: run them in
order; `except RuntimeError` prints the message and swallows the error.
Any other exception — the `ReturnValue` signal, the host
`ZeroDivisionError` — is not caught here and escapes. -/
def interpret (H : Host) (fuel : Nat) (statements : List ASTNode) (st : State) :
    Except (Err × State) State :=
  match executeList H fuel statements st with
  | .ok st1 => .ok st1
  | .error (.runtime msg, st1) =>
      .ok { st1 with out := st1.out ++ ["Runtime error: " ++ msg] }
  | .error es => .error es

/-- What `str(e)` yields for each exception when the driver prints it:
`RuntimeError` carries its message, the `ReturnValue` signal passes no
arguments to `Exception` so its text is empty, and the float-modulo
`ZeroDivisionError` reads "float modulo". -/
def hostMsg : Err → String
  | .runtime m => m
  | .ret _ => ""
  | .zeroDiv => "float modulo"
  | .fuelOut => ""

/-- The interpretation stage of `run_source` (soorj.py) on an already
parsed program: a fresh interpreter runs the statements, and the driver's
`except Exception` catch-all prints `Error: ` plus `str(e)` for anything
that escaped `interpret`. -/
def runProgram (H : Host) (fuel : Nat) (statements : List ASTNode) : List String :=
  match interpret H fuel statements initState with
  | .ok st => st.out
  | .error (e, st) => st.out ++ ["Error: " ++ hostMsg e]

/-! The scanner (lexer.py). -/

/-- `TokenType` of lexer.py. -/
inductive TokenType where
  | NUMBER | STRING | IDENTIFIER
  | IF | ELSE | WHILE | FUNCTION | RETURN | TRUE | FALSE | NULL | AND | OR | NOT
  | PLUS | MINUS | MULTIPLY | DIVIDE | MODULO | ASSIGN | EQUALS | NOT_EQUALS
  | LESS_THAN | GREATER_THAN | LESS_EQUAL | GREATER_EQUAL
  | LEFT_PAREN | RIGHT_PAREN | LEFT_BRACE | RIGHT_BRACE | COMMA
  | NEWLINE | EOF
deriving DecidableEq

/-- `Token`: kind, lexeme, line, column. -/
structure Token where
  type : TokenType
  value : String
  line : Nat
  column : Nat
deriving DecidableEq

/-- Scanner state: the unread suffix of the source together with the line
and column counters.  The source keeps an absolute index into the text but
only ever reads from that index on, so the suffix carries the same
information. -/
structure LexState where
  rest : List Char
  line : Nat
  col : Nat
deriving DecidableEq

/-- `Lexer.advance`: consume one character, tracking lines and columns. -/
def lexAdvance (st : LexState) : LexState :=
  match st.rest with
  | [] => st
  | c :: cs => if c = '\n' then ⟨cs, st.line + 1, 1⟩ else ⟨cs, st.line, st.col + 1⟩

/-- `Lexer.is_armenian_char`: code point in U+0530..U+058F or
U+FB13..U+FB17. -/
def isArmenianChar (c : Char) : Bool :=
  (0x0530 ≤ c.toNat ∧ c.toNat ≤ 0x058F) ∨ (0xFB13 ≤ c.toNat ∧ c.toNat ≤ 0xFB17)

/-- Python's `str.isdigit` as the scanner uses it.  (Python also accepts
some non-ASCII decimal digits there; the claims settled in this file are
insensitive to that extra generality, and every counterexample uses ASCII
digits.) -/
def pyIsDigit (c : Char) : Bool := c.isDigit

/-- The guard of the `read_number` loop: a digit or a dot — with no limit
on how many dots have been taken already. -/
def digitOrDot (c : Char) : Bool := pyIsDigit c || c = '.'

/-- `Lexer.is_valid_string_char`: Armenian letters, digits, whitespace, the
listed ASCII punctuation, or the listed Armenian punctuation. -/
def isValidStringChar (c : Char) : Bool :=
  isArmenianChar c || pyIsDigit c ||
  (" \t\n\r.,!?:;-()[]\x7b\x7d\"'/\\".toList.contains c) ||
  ("՛՜՝՞՟։՚՛՜՝՞՟".toList.contains c)

/-- The loop of `read_number`: take characters while they are digits or
dots.  A digit or dot is never a newline, so each step advances the column
by one on the same line. -/
def readNumberLoop : List Char → Nat → Nat → List Char × LexState
  | [], line, col => ([], ⟨[], line, col⟩)
  | c :: cs, line, col =>
      if digitOrDot c then
        let r := readNumberLoop cs line (col + 1)
        (c :: r.1, r.2)
      else ([], ⟨c :: cs, line, col⟩)

/-- The loop of `read_identifier`: take characters while they are Armenian
letters (never a newline, so the column just advances). -/
def readIdentLoop : List Char → Nat → Nat → List Char × LexState
  | [], line, col => ([], ⟨[], line, col⟩)
  | c :: cs, line, col =>
      if isArmenianChar c then
        let r := readIdentLoop cs line (col + 1)
        (c :: r.1, r.2)
      else ([], ⟨c :: cs, line, col⟩)

/-- `Lexer.skip_whitespace`: space, tab and carriage return are consumed
silently (none of them is a newline). -/
def skipWs : List Char → Nat → Nat → LexState
  | [], line, col => ⟨[], line, col⟩
  | c :: cs, line, col =>
      if c = ' ' ∨ c = '\t' ∨ c = '\r' then skipWs cs line (col + 1)
      else ⟨c :: cs, line, col⟩

/-- The comment branch of `tokenize`: discard characters up to, but not
including, the next newline. -/
def skipComment : List Char → Nat → Nat → LexState
  | [], line, col => ⟨[], line, col⟩
  | c :: cs, line, col =>
      if c = '\n' then ⟨c :: cs, line, col⟩
      else skipComment cs line (col + 1)

/-- The escape table of `read_string`: `\n`, `\t`, `\r`, `\\`, the opening
quote, and any other escaped character stands for itself. -/
def escapeChar (quote d : Char) : Char :=
  if d = 'n' then '\n'
  else if d = 't' then '\t'
  else if d = 'r' then '\r'
  else if d = '\\' then '\\'
  else if d = quote then quote
  else d

/-- The scan loop of `read_string`, entered after the opening quote was
consumed: accumulate the string value until the closing quote or the end
of the input (an unterminated string is accepted silently).  A backslash
consumes the following character through the escape table; a lone final
backslash contributes nothing.  `Except.error` models the `ValueError` for
a disallowed raw character. -/
def readStringLoop (quote : Char) : List Char → Nat → Nat → Except String (List Char × LexState)
  | [], line, col => .ok ([], ⟨[], line, col⟩)
  | c :: cs, line, col =>
      if c = quote then .ok ([], ⟨c :: cs, line, col⟩)
      else if c = '\\' then
        match cs with
        | [] => readStringLoop quote [] line (col + 1)
        | d :: ds =>
            let line2 := if d = '\n' then line + 1 else line
            let col2 := if d = '\n' then 1 else col + 2
            (match readStringLoop quote ds line2 col2 with
             | .error e => .error e
             | .ok (v, st) => .ok (escapeChar quote d :: v, st))
      else if isValidStringChar c then
        let line2 := if c = '\n' then line + 1 else line
        let col2 := if c = '\n' then 1 else col + 1
        (match readStringLoop quote cs line2 col2 with
         | .error e => .error e
         | .ok (v, st) => .ok (c :: v, st))
      else
        .error ("Invalid character '" ++ c.toString ++ "' in string at line " ++
                toString line ++ ", column " ++ toString col ++
                ". Only Armenian characters, numbers, and punctuation allowed.")

/-- The keyword table: an identifier run is matched against it, defaulting
to `IDENTIFIER`. -/
def keywordType (s : String) : TokenType :=
  if s = "եթե" then .IF
  else if s = "հպ" then .ELSE
  else if s = "մինչև" then .WHILE
  else if s = "գործ" then .FUNCTION
  else if s = "տուր" then .RETURN
  else if s = "այո" then .TRUE
  else if s = "ոչ" then .FALSE
  else if s = "հեչ" then .NULL
  else if s = "և" then .AND
  else if s = "կամ" then .OR
  else if s = "չի" then .NOT
  else .IDENTIFIER

/-- The `single_chars` table. -/
def singleCharType (c : Char) : Option TokenType :=
  if c = '+' then some .PLUS
  else if c = '-' then some .MINUS
  else if c = '*' then some .MULTIPLY
  else if c = '/' then some .DIVIDE
  else if c = '%' then some .MODULO
  else if c = '(' then some .LEFT_PAREN
  else if c = ')' then some .RIGHT_PAREN
  else if c = '{' then some .LEFT_BRACE
  else if c = '}' then some .RIGHT_BRACE
  else if c = ',' then some .COMMA
  else Option.none

/-- The `two_chars` table, keyed by the current character and the peeked
next one.  It only ever fires when the current character is one of
`= ! < >`, so the tokenizer below consults it exactly where the source
checks `char in '=!<>'`. -/
def twoCharType (c : Char) (next : Option Char) : Option TokenType :=
  match next with
  | Option.none => Option.none
  | some d =>
      if c = '=' ∧ d = '=' then some .EQUALS
      else if c = '!' ∧ d = '=' then some .NOT_EQUALS
      else if c = '<' ∧ d = '=' then some .LESS_EQUAL
      else if c = '>' ∧ d = '=' then some .GREATER_EQUAL
      else Option.none

/-- The main `tokenize` loop, fuel-indexed (every iteration consumes at
least one character, so `length + 1` fuel always suffices), returning the
tokens produced from the given state on.  `Except.error` models the
`ValueError` raises.  Token lines are read after the token's characters
were consumed, columns before, exactly as in the source. -/
def tokenizeAux : Nat → LexState → Except String (List Token)
  | 0, _ => .error "out of fuel"
  | fuel+1, st0 =>
    match st0.rest with
    | [] => .ok [⟨.EOF, "", st0.line, st0.col⟩]
    | _ :: _ =>
      let st := skipWs st0.rest st0.line st0.col
      match st.rest with
      | [] => .ok [⟨.EOF, "", st.line, st.col⟩]
      | c :: cs =>
        if c = '\n' then
          match tokenizeAux fuel (lexAdvance st) with
          | .error e => .error e
          | .ok ts => .ok (⟨.NEWLINE, "\n", st.line, st.col⟩ :: ts)
        else if c = '#' then
          tokenizeAux fuel (skipComment st.rest st.line st.col)
        else if pyIsDigit c then
          let r := readNumberLoop st.rest st.line st.col
          match tokenizeAux fuel r.2 with
          | .error e => .error e
          | .ok ts => .ok (⟨.NUMBER, String.mk r.1, r.2.line, st.col⟩ :: ts)
        else if c = '"' ∨ c = '\'' then
          match readStringLoop c cs st.line (st.col + 1) with
          | .error e => .error e
          | .ok (v, st1) =>
              let st2 := match st1.rest with
                         | q :: _ => if q = c then lexAdvance st1 else st1
                         | [] => st1
              match tokenizeAux fuel st2 with
              | .error e => .error e
              | .ok ts => .ok (⟨.STRING, String.mk v, st2.line, st.col⟩ :: ts)
        else if isArmenianChar c then
          let r := readIdentLoop st.rest st.line st.col
          let s := String.mk r.1
          match tokenizeAux fuel r.2 with
          | .error e => .error e
          | .ok ts => .ok (⟨keywordType s, s, r.2.line, st.col⟩ :: ts)
        else
          match twoCharType c cs.head? with
          | some tt =>
              let lexeme := String.mk (c :: (match cs.head? with
                                             | some d => [d]
                                             | Option.none => []))
              (match tokenizeAux fuel (lexAdvance (lexAdvance st)) with
               | .error e => .error e
               | .ok ts => .ok (⟨tt, lexeme, st.line, st.col⟩ :: ts))
          | Option.none =>
              match singleCharType c with
              | some tt =>
                  (match tokenizeAux fuel (lexAdvance st) with
                   | .error e => .error e
                   | .ok ts => .ok (⟨tt, String.mk [c], st.line, st.col⟩ :: ts))
              | Option.none =>
                  if c = '=' then
                    match tokenizeAux fuel (lexAdvance st) with
                    | .error e => .error e
                    | .ok ts => .ok (⟨.ASSIGN, "=", st.line, st.col⟩ :: ts)
                  else if c = '<' then
                    match tokenizeAux fuel (lexAdvance st) with
                    | .error e => .error e
                    | .ok ts => .ok (⟨.LESS_THAN, "<", st.line, st.col⟩ :: ts)
                  else if c = '>' then
                    match tokenizeAux fuel (lexAdvance st) with
                    | .error e => .error e
                    | .ok ts => .ok (⟨.GREATER_THAN, ">", st.line, st.col⟩ :: ts)
                  else
                    .error ("Unknown character '" ++ c.toString ++ "' at line " ++
                            toString st.line ++ ", column " ++ toString st.col)

/-- `Lexer.tokenize` on a source string. -/
def tokenize (source : String) : Except String (List Token) :=
  tokenizeAux (source.length + 1) ⟨source.toList, 1, 1⟩

/-- Tag/payload consistency of a value; every value the interpreter builds
satisfies it. -/
def wellFormed (v : SoorjValue) : Bool :=
  match v.value with
  | .none => v.type_name = "null"
  | .bool _ => v.type_name = "boolean"
  | .num _ => v.type_name = "number"
  | .str _ => v.type_name = "string"
  | .func _ => v.type_name = "function"

/-! Theorems settling the claims. -/

/-- C1, counterexample: the logical operators do not short-circuit.  In
`ֆ() կամ գ()` where `ֆ()` returns the truthy number 1, `գ` IS called: the
program below prints the line that only `գ`'s body writes, although the
claim says `գ` is never called when the left side is truthy. -/
theorem orCall_counterexample :
    (interpret defaultHost 20
      [.functionDeclaration "ֆ" [] [.returnStatement (some (.numberLiteral 1))],
       .functionDeclaration "գ" []
         [.exprStatement (.functionCall "գրէ" [.stringLiteral "կանչ"]),
          .returnStatement (some (.numberLiteral 1))],
       .exprStatement (.binaryOp (.functionCall "ֆ" []) "կամ" (.functionCall "գ" []))]
      initState).toOption.map State.out = some ["կանչ"]
    ∧ (numValue 1).isTruthy = true := by
  exact ⟨rfl, rfl⟩

/-- C1, amended: `և` and `կամ` evaluate both operands unconditionally —
the right operand is evaluated even when the left one already decides the
result — and when both evaluations succeed the result is the boolean
combination of the two truthinesses. -/
theorem logicalOps_evaluate_both (H : Host) (n : Nat) (L R : ASTNode) (st st1 : State)
    (l : SoorjValue) (hL : evaluate H n L st = .ok (l, st1)) :
    (∀ es, evaluate H n R st1 = .error es →
       evaluate H (n+1) (.binaryOp L "կամ" R) st = .error es ∧
       evaluate H (n+1) (.binaryOp L "և" R) st = .error es) ∧
    (∀ r st2, evaluate H n R st1 = .ok (r, st2) →
       evaluate H (n+1) (.binaryOp L "կամ" R) st
         = .ok (boolValue (l.isTruthy || r.isTruthy), st2) ∧
       evaluate H (n+1) (.binaryOp L "և" R) st
         = .ok (boolValue (l.isTruthy && r.isTruthy), st2)) := by
  constructor
  · intro es h
    constructor <;> simp [evaluate, hL, h]
  · intro r st2 h
    constructor <;> simp [evaluate, hL, h, binaryOpOn]

/-- C1, witness for the amended theorem at a concrete input. -/
theorem logicalOps_evaluate_both_witness :
    evaluate defaultHost 2 (.binaryOp (.booleanLiteral true) "կամ" (.booleanLiteral false))
      initState = .ok (boolValue true, initState) := by
  have h := (logicalOps_evaluate_both defaultHost 1 (.booleanLiteral true)
      (.booleanLiteral false) initState initState (boolValue true) rfl).2
      (boolValue false) initState rfl
  simpa using h.1

/-- C2, counterexample: `հեչ + "x"` concatenates `str` of the raw payloads
("None" for null), not the display forms ("հեչ" for null) the claim
names, so the result is "Nonex" where the claim demands "հեչx". -/
theorem plusNull_counterexample :
    evaluate defaultHost 2 (.binaryOp .nullLiteral "+" (.stringLiteral "x")) initState
      = .ok (strValue "Nonex", initState)
    ∧ display defaultHost nullValue ++ display defaultHost (strValue "x") = "հեչx"
    ∧ "Nonex" ≠ "հեչx" := by
  exact ⟨rfl, rfl, by decide⟩

/-- C2, amended: when at least one operand of `+` is a string, the result
is the string concatenation of Python `str()` of the two RAW payloads —
which renders null as "None" and booleans as "True"/"False", unlike the
display form used by `գրէ` (null → հեչ, booleans → այո/ոչ); a string
operand contributes its raw characters and a number the host's rendering,
as the claim says. -/
theorem plusString_concatenates_pyStr (H : Host) (l r : SoorjValue)
    (h : l.type_name = "string" ∨ r.type_name = "string") :
    binaryOpOn H "+" l r = .ok (strValue (pyStr H l.value ++ pyStr H r.value)) ∧
    (∀ n L R st st1 st2, evaluate H n L st = .ok (l, st1) →
        evaluate H n R st1 = .ok (r, st2) →
        evaluate H (n+1) (.binaryOp L "+" R) st
          = .ok (strValue (pyStr H l.value ++ pyStr H r.value), st2)) ∧
    pyStr H .none = "None" ∧ pyStr H (.bool true) = "True" ∧
    pyStr H (.bool false) = "False" ∧
    (∀ s, pyStr H (.str s) = s) ∧ (∀ q, pyStr H (.num q) = H.numStr q) := by
  have hplus : binaryOpOn H "+" l r = .ok (strValue (pyStr H l.value ++ pyStr H r.value)) := by
    rcases h with h | h <;> simp [binaryOpOn, h]
  refine ⟨hplus, ?_, rfl, rfl, rfl, fun s => rfl, fun q => rfl⟩
  intro n L R st st1 st2 hL hR
  simp [evaluate, hL, hR, hplus]

/-- C2, witness for the amended theorem at a concrete input. -/
theorem plusString_concatenates_pyStr_witness :
    binaryOpOn defaultHost "+" (strValue "ա") (boolValue true) = .ok (strValue "աTrue") := by
  have h := (plusString_concatenates_pyStr defaultHost (strValue "ա") (boolValue true)
      (Or.inl rfl)).1
  exact h.trans (congrArg (fun s => Except.ok (strValue s)) (by decide))

/-- C3, counterexample: `1 == այո` evaluates to true (and `1 != այո` to
false) although the operands' tags differ — the interpreter compares the
raw payloads with Python `==`, under which `True` equals `1`. -/
theorem eqCoercion_counterexample :
    evaluate defaultHost 2 (.binaryOp (.numberLiteral 1) "==" (.booleanLiteral true)) initState
      = .ok (boolValue true, initState)
    ∧ evaluate defaultHost 2 (.binaryOp (.numberLiteral 1) "!=" (.booleanLiteral true)) initState
      = .ok (boolValue false, initState)
    ∧ (numValue 1).type_name ≠ (boolValue true).type_name := by
  exact ⟨rfl, rfl, by decide⟩

/-- C3, amended: for well-formed operands of different tags, `==` yields
the Python equality of the raw payloads, and across tags that equality
holds exactly when one operand is a boolean, the other a number, and the
number equals the boolean's numeric value (`true ↔ 1`, `false ↔ 0`).  In
particular `1 == "1"` is still false, but `1 == true` is true. -/
theorem eq_crossTag (H : Host) (a b : SoorjValue)
    (ha : wellFormed a = true) (hb : wellFormed b = true)
    (hne : a.type_name ≠ b.type_name) :
    binaryOpOn H "==" a b = .ok (boolValue (pyEq H a.value b.value)) ∧
    binaryOpOn H "!=" a b = .ok (boolValue (!pyEq H a.value b.value)) ∧
    (pyEq H a.value b.value = true ↔
      (∃ bb q, ((a.value = .bool bb ∧ b.value = .num q) ∨
                (a.value = .num q ∧ b.value = .bool bb))
        ∧ q = pyBoolAsNum bb)) := by
  refine ⟨rfl, rfl, ?_⟩
  rcases a with ⟨av, ta⟩
  rcases b with ⟨bv, tb⟩
  simp only at hne ⊢
  cases av <;> cases bv <;>
      simp only [wellFormed, decide_eq_true_eq] at ha hb <;> subst ha <;> subst hb
  all_goals
    first
      | exact absurd rfl hne
      | simp [pyEq, eq_comm]
      | (simp only [pyEq, beq_iff_eq]
         constructor
         · intro h
           first
             | exact ⟨_, _, Or.inl ⟨rfl, rfl⟩, h.symm⟩
             | exact ⟨_, _, Or.inr ⟨rfl, rfl⟩, h⟩
         · rintro ⟨bb, q2, ⟨e1, e2⟩ | ⟨e1, e2⟩, hq⟩ <;>
             first
               | exact PyVal.noConfusion e1
               | (injection e1 with e1
                  injection e2 with e2
                  subst e1
                  subst e2
                  first
                    | exact hq.symm
                    | exact hq))

/-- C3, witness for the amended theorem at a concrete input. -/
theorem eq_crossTag_witness :
    binaryOpOn defaultHost "==" (numValue 1) (boolValue true)
      = .ok (boolValue (pyEq defaultHost (numValue 1).value (boolValue true).value)) :=
  (eq_crossTag defaultHost (numValue 1) (boolValue true) rfl rfl (by decide)).1

/-- C7, counterexample: a top-level `տուր` does NOT surface as a runtime
error: the `ReturnValue` signal is not a `RuntimeError`, so
`Interpreter.interpret` (which catches only `RuntimeError`) lets it
escape, and the only top-level report is the driver catch-all's bare
`Error: ` line — not a `Runtime error:` line. -/
theorem topReturn_counterexample :
    interpret defaultHost 9 [.returnStatement Option.none] initState
      = .error (.ret nullValue, initState)
    ∧ Err.isRuntime (.ret nullValue) = false
    ∧ runProgram defaultHost 9 [.returnStatement Option.none] = ["Error: "] := by
  exact ⟨rfl, rfl, rfl⟩

/-- C7, amended: a return signal raised by the top-level statements is not
converted into a runtime error by `Interpreter.interpret` — its handler
covers only `RuntimeError`, so the `ReturnValue` exception escapes the
interpreter as a control exception; the driver `run_source` then reports
it through its generic `except Exception` catch-all as a bare `Error: `
line (the signal carries no message), never through the runtime-error
path. -/
theorem topReturn_escapes_interpret (H : Host) (fuel : Nat) (stmts : List ASTNode)
    (v : SoorjValue) (st2 : State)
    (h : executeList H fuel stmts initState = .error (.ret v, st2)) :
    interpret H fuel stmts initState = .error (.ret v, st2) ∧
    Err.isRuntime (.ret v) = false ∧
    runProgram H fuel stmts = st2.out ++ ["Error: "] := by
  refine ⟨?_, rfl, ?_⟩ <;> simp [interpret, runProgram, hostMsg, h]

/-- C7, witness for the amended theorem at a concrete input. -/
theorem topReturn_escapes_interpret_witness :
    interpret defaultHost 2 [.returnStatement Option.none] initState
      = .error (.ret nullValue, initState) :=
  (topReturn_escapes_interpret defaultHost 2 [.returnStatement Option.none]
    nullValue initState rfl).1

/-- C4: free variables of a user-defined function are dynamically scoped.
A `SoorjFunction` stores no environment at all (`FuncVal.user` carries only
name, parameters and body), and `SoorjFunction.call` pushes a frame whose
parent is the interpreter's environment at CALL time; so a parameterless
function whose body returns the free variable `x` yields whatever `x`
denotes in the caller's chain at the moment of the call — the environment
in effect at the function's definition cannot even take part. -/
theorem callFunction_dynamicScope (H : Host) (n : Nat) (fname x : String)
    (st : State) (v : SoorjValue) (hx : envGet st.env x = some v) :
    callFunction H (n+4) fname [] [.returnStatement (some (.identifier x))] [] st
      = .ok (v, st) := by
  have hlook : envGet (bindParams [] [] :: st.env) x = some v := by
    simpa [envGet, bindParams] using hx
  simp [callFunction, executeList, execute, evaluate, hlook]

/-- C4, witness at a concrete caller environment. -/
theorem callFunction_dynamicScope_witness :
    callFunction defaultHost 4 "ֆ" [] [.returnStatement (some (.identifier "խ"))] []
      ⟨[[("խ", numValue 7)]], []⟩ = .ok (numValue 7, ⟨[[("խ", numValue 7)]], []⟩) :=
  callFunction_dynamicScope defaultHost 0 "ֆ" "խ" ⟨[[("խ", numValue 7)]], []⟩
    (numValue 7) rfl

/-- In the frame written by `frameSet`, the written name now maps to the
written value. -/
theorem frameSet_lookup_self (f : Frame) (x : String) (v : SoorjValue) :
    List.lookup x (frameSet f x v) = some v := by
  induction f with
  | nil => simp [frameSet]
  | cons kv rest ih =>
      rcases kv with ⟨k, w⟩
      by_cases h : k = x
      · subst h
        simp [frameSet]
      · have hbeq : (x == k) = false := beq_eq_false_iff_ne.mpr (fun e => h e.symm)
        simp [frameSet, h, List.lookup_cons, hbeq, ih]

/-- `frameSet` leaves every other name's binding unchanged. -/
theorem frameSet_lookup_other (f : Frame) (x y : String) (v : SoorjValue) (h : y ≠ x) :
    List.lookup y (frameSet f x v) = List.lookup y f := by
  induction f with
  | nil => simp [frameSet, List.lookup_cons, beq_eq_false_iff_ne.mpr h]
  | cons kv rest ih =>
      rcases kv with ⟨k, w⟩
      by_cases hk : k = x
      · subst hk
        simp [frameSet, List.lookup_cons, beq_eq_false_iff_ne.mpr h]
      · cases hyk : (y == k) <;>
          simp [frameSet, hk, List.lookup_cons, hyk, ih]

/-- When some frame of the chain binds the name, `Environment.assign`
rewrites exactly the nearest such frame and keeps every other frame as it
was. -/
theorem envAssign_found (x : String) (v : SoorjValue) :
    ∀ env : Env, (∃ f ∈ env, frameHas f x = true) →
    ∃ pre f post, env = pre ++ f :: post ∧ (∀ g ∈ pre, frameHas g x = false) ∧
      frameHas f x = true ∧
      envAssign env x v = some (pre ++ frameSet f x v :: post) := by
  intro env
  induction env with
  | nil =>
      rintro ⟨f, hf, _⟩
      simp at hf
  | cons f rest ih =>
      intro hex
      by_cases hf : frameHas f x
      · exact ⟨[], f, rest, rfl, by simp, hf, by simp [envAssign, hf]⟩
      · have hex2 : ∃ g ∈ rest, frameHas g x = true := by
          rcases hex with ⟨f2, hf2, hx2⟩
          rcases List.mem_cons.mp hf2 with rfl | hf2
          · exact absurd hx2 (by simpa using hf)
          · exact ⟨f2, hf2, hx2⟩
        obtain ⟨pre, g, post, he, hpre, hg, hassign⟩ := ih hex2
        refine ⟨f :: pre, g, post, by simp [he], ?_, hg, ?_⟩
        · intro g2 hg2
          rcases List.mem_cons.mp hg2 with rfl | hg2
          · simpa using hf
          · exact hpre g2 hg2
        · simp [envAssign, hf, hassign]

/-- When no frame of the chain binds the name, `Environment.assign`
raises (modelled as `Option.none`). -/
theorem envAssign_missing (x : String) (v : SoorjValue) :
    ∀ env : Env, (∀ f ∈ env, frameHas f x = false) → envAssign env x v = Option.none := by
  intro env
  induction env with
  | nil => intro _; rfl
  | cons f rest ih =>
      intro h
      have hf := h f (by simp)
      simp [envAssign, hf, ih (fun g hg => h g (by simp [hg]))]

/-- C5: an assignment `x = v` evaluated in environment chain `env` goes
through `assignOrDefine` (the `try assign / except define` of the
evaluator); when some frame on the chain already binds `x`, the NEAREST
such frame is updated to `v` and every other frame — nearer or farther —
is left exactly as it was (even the other bindings of the updated frame
survive); when no frame binds `x`, the binding is created in the
innermost frame and the rest of the chain is untouched. -/
theorem assignment_nearest_or_innermost (env : Env) (x : String) (v : SoorjValue) :
    (∀ H n e st v2 st1, evaluate H n e st = .ok (v2, st1) →
        evaluate H (n+1) (.assignment x e) st
          = .ok (v2, { st1 with env := assignOrDefine st1.env x v2 })) ∧
    ((∃ f ∈ env, frameHas f x = true) →
        ∃ pre f post, env = pre ++ f :: post ∧
          (∀ g ∈ pre, frameHas g x = false) ∧ frameHas f x = true ∧
          assignOrDefine env x v = pre ++ frameSet f x v :: post ∧
          List.lookup x (frameSet f x v) = some v ∧
          (∀ y, y ≠ x → List.lookup y (frameSet f x v) = List.lookup y f)) ∧
    ((∀ f ∈ env, frameHas f x = false) →
        ∀ f rest, env = f :: rest →
          assignOrDefine env x v = frameSet f x v :: rest ∧
          List.lookup x (frameSet f x v) = some v) := by
  refine ⟨?_, ?_, ?_⟩
  · intro H n e st v2 st1 h
    simp [evaluate, h]
  · intro hex
    obtain ⟨pre, f, post, he, hpre, hf, hassign⟩ := envAssign_found x v env hex
    exact ⟨pre, f, post, he, hpre, hf, by simp [assignOrDefine, hassign],
      frameSet_lookup_self f x v, fun y hy => frameSet_lookup_other f x y v hy⟩
  · intro h f rest he
    subst he
    have hmiss := envAssign_missing x v (f :: rest) h
    exact ⟨by simp [assignOrDefine, hmiss, envDefine], frameSet_lookup_self f x v⟩

/-- C5, witness: assigning to a name bound only in the outer frame updates
that frame through the inner one. -/
theorem assignment_nearest_or_innermost_witness :
    evaluate defaultHost 2 (.assignment "ա" (.numberLiteral 3)) initState
      = .ok (numValue 3, { initState with env := assignOrDefine initState.env "ա" (numValue 3) }) :=
  (assignment_nearest_or_innermost initState.env "ա" (numValue 3)).1 defaultHost 1
    (.numberLiteral 3) initState (numValue 3) initState rfl

/-- C6: at a user-function call frame the return signal is consumed there:
when the body's execution raises `ReturnValue v`, the call returns exactly
`v` — as a normal result, not a propagating exception — and when the body
finishes without any `տուր`, the call returns null (`հեչ`).  On both
paths the `finally` pops the frame that the call pushed. -/
theorem callFunction_return_identity (H : Host) (n : Nat) (fname : String)
    (params : List String) (body : List ASTNode) (args : List SoorjValue) (st : State)
    (harity : args.length = params.length) :
    (∀ v st2,
        executeList H n body { st with env := bindParams params args :: st.env }
          = .error (.ret v, st2) →
        callFunction H (n+1) fname params body args st
          = .ok (v, { st2 with env := st2.env.tail })) ∧
    (∀ st2,
        executeList H n body { st with env := bindParams params args :: st.env } = .ok st2 →
        callFunction H (n+1) fname params body args st
          = .ok (nullValue, { st2 with env := st2.env.tail })) := by
  constructor
  · intro v st2 h
    simp [callFunction, harity, h]
  · intro st2 h
    simp [callFunction, harity, h]

/-- C6, witness: a body that returns a string value, and a body with no
return at all. -/
theorem callFunction_return_identity_witness :
    callFunction defaultHost 4 "ֆ" [] [.returnStatement (some (.stringLiteral "ա"))] [] initState
      = .ok (strValue "ա", initState) := by
  have h := (callFunction_return_identity defaultHost 3 "ֆ" []
      [.returnStatement (some (.stringLiteral "ա"))] [] initState rfl).1
      (strValue "ա") { initState with env := [] :: initState.env } rfl
  simpa using h

/-- C10: dividing by zero is guarded only for `/`: `a / 0` raises the
interpreter's own `RuntimeError "Division by zero"`, which `interpret`
catches and prints, while `a % 0` reaches the host's float modulo and
raises `ZeroDivisionError` — an exception that is not the interpreter's
runtime-error kind and escapes `interpret` uncaught. -/
theorem divModZero_guards (H : Host) (a : ℚ) (n : Nat) (st : State) :
    evaluate H (n+2) (.binaryOp (.numberLiteral a) "/" (.numberLiteral 0)) st
      = .error (.runtime "Division by zero", st)
    ∧ evaluate H (n+2) (.binaryOp (.numberLiteral a) "%" (.numberLiteral 0)) st
      = .error (.zeroDiv, st)
    ∧ Err.isRuntime .zeroDiv = false
    ∧ interpret H (n+4) [.exprStatement (.binaryOp (.numberLiteral a) "/" (.numberLiteral 0))] st
      = .ok { st with out := st.out ++ ["Runtime error: Division by zero"] }
    ∧ interpret H (n+4) [.exprStatement (.binaryOp (.numberLiteral a) "%" (.numberLiteral 0))] st
      = .error (.zeroDiv, st) := by
  exact ⟨rfl, rfl, rfl, rfl, rfl⟩

/-- C8, counterexample: `read_number` consumes ANY run of digits and dots,
so the source text "1.2.3" is scanned as one single number token whose
lexeme, preserved verbatim, contains two dots — the claim's "at most one
'.'" is violated (and `float("1.2.3")` later raises in the parser). -/
theorem number_token_twoDots_counterexample :
    tokenize "1.2.3" = .ok [⟨.NUMBER, "1.2.3", 1, 1⟩, ⟨.EOF, "", 1, 6⟩] ∧
    (("1.2.3").toList.filter (fun c => c = '.')).length = 2 := by
  exact ⟨rfl, rfl⟩

/-- Every character the `read_number` loop consumes is a digit or a dot. -/
theorem readNumberLoop_chars (l : List Char) (line : Nat) :
    ∀ col, ∀ c ∈ (readNumberLoop l line col).1, digitOrDot c = true := by
  induction l with
  | nil =>
      intro col c hc
      simp [readNumberLoop] at hc
  | cons d ds ih =>
      intro col c hc
      by_cases h : digitOrDot d
      · simp only [readNumberLoop, h, if_true] at hc
        rcases List.mem_cons.mp hc with rfl | hc
        · exact h
        · exact ih _ c hc
      · simp [readNumberLoop, h] at hc

/-- When the first unread character passes the loop guard, the number
lexeme starts with it. -/
theorem readNumberLoop_cons_digit (d : Char) (ds : List Char) (line col : Nat)
    (h : digitOrDot d = true) :
    (readNumberLoop (d :: ds) line col).1 = d :: (readNumberLoop ds line (col + 1)).1 := by
  simp [readNumberLoop, h]

/-- The keyword table never yields the number kind. -/
theorem keywordType_ne_number (s : String) : keywordType s ≠ TokenType.NUMBER := by
  unfold keywordType
  repeat' split
  all_goals decide

/-- The two-character operator table never yields the number kind. -/
theorem twoCharType_ne_number (c : Char) (o : Option Char) (tt : TokenType)
    (h : twoCharType c o = some tt) : tt ≠ TokenType.NUMBER := by
  unfold twoCharType at h
  repeat' split at h
  all_goals simp_all
  all_goals (subst h; decide)

/-- The single-character token table never yields the number kind. -/
theorem singleCharType_ne_number (c : Char) (tt : TokenType)
    (h : singleCharType c = some tt) : tt ≠ TokenType.NUMBER := by
  unfold singleCharType at h
  repeat' split at h
  all_goals simp_all
  all_goals (subst h; decide)

/-- A number scan started on a digit yields a digit-led nonempty lexeme of
digits and dots. -/
theorem readNumberLoop_shape (l : List Char) (line col : Nat) (c : Char) (cs : List Char)
    (hl : l = c :: cs) (hdig : pyIsDigit c = true) :
    ∃ d ds, String.mk (readNumberLoop l line col).1 = String.mk (d :: ds) ∧
      pyIsDigit d = true ∧ ∀ ch ∈ d :: ds, digitOrDot ch = true := by
  subst hl
  have hdd : digitOrDot c = true := by simp [digitOrDot, hdig]
  refine ⟨c, (readNumberLoop cs line (col+1)).1, ?_, hdig, ?_⟩
  · rw [readNumberLoop_cons_digit _ _ _ _ hdd]
  · intro ch hch
    rcases List.mem_cons.mp hch with rfl | hch
    · exact hdd
    · exact readNumberLoop_chars cs line (col+1) ch hch

/-- C8, amended: every number token the scanner produces is a nonempty
digit-led run whose characters are digits or dots, with the lexeme
preserved verbatim — but nothing limits the dots to one, so the lexeme
need not parse as a double (see the counterexample "1.2.3"). -/
theorem number_token_shape : ∀ (fuel : Nat) (st : LexState) (ts : List Token),
    tokenizeAux fuel st = .ok ts →
    ∀ t ∈ ts, t.type = TokenType.NUMBER →
      ∃ d ds, t.value = String.mk (d :: ds) ∧ pyIsDigit d = true ∧
        ∀ c ∈ d :: ds, digitOrDot c = true := by
  intro fuel
  induction fuel with
  | zero =>
      intro st ts h
      simp [tokenizeAux] at h
  | succ n ih =>
      intro st ts h
      simp only [tokenizeAux] at h
      repeat' split at h
      all_goals
        try (first
          | exact Except.noConfusion h
          | exact ih _ _ h
          | (cases h
             intro t ht htype
             rcases List.mem_cons.mp ht with rfl | ht
             · first
                 | exact absurd htype (keywordType_ne_number _)
                 | exact absurd htype (twoCharType_ne_number _ _ _ (by assumption))
                 | exact absurd htype (singleCharType_ne_number _ _ (by assumption))
                 | simp at htype
             · first
                 | simp at ht
                 | exact ih _ _ (by assumption) t ht htype))
      -- remaining: the number-token branch
      all_goals
        (cases h
         intro t ht htype
         rcases List.mem_cons.mp ht with rfl | ht
         · exact readNumberLoop_shape _ _ _ _ _ (by assumption) (by assumption)
         · exact ih _ _ (by assumption) t ht htype)

/-- C8, witness for the amended theorem on the source text "1.2". -/
theorem number_token_shape_witness :
    ∃ d ds, (Token.mk .NUMBER "1.2" 1 1).value = String.mk (d :: ds) ∧
      pyIsDigit d = true ∧ ∀ c ∈ d :: ds, digitOrDot c = true :=
  number_token_shape 4 ⟨"1.2".toList, 1, 1⟩
    [⟨.NUMBER, "1.2", 1, 1⟩, ⟨.EOF, "", 1, 4⟩] rfl ⟨.NUMBER, "1.2", 1, 1⟩
    (List.mem_cons_self _ _) rfl

end Soorj
